import Mathlib

/-!
Verification of the BitComm voice shopping client.

Shallow embedding of the client logic of the repository:
the audio transport codec and outbound-send guard of
frontend/src/context/VoiceContext.js, the playback queue, the UI
synchronization layer (handleUIUpdate plus the callbacks registered by the
Products page), the voice session lifecycle (startVoice, stopVoice,
toggleVoice, cleanup), and the cart operations of
frontend/src/context/CartContext.js.

Numbers: audio samples are modelled as rationals, 16-bit PCM values as
integers with the twos-complement wrap written out explicitly.
-/

namespace Bitcomm

/-! ## Audio transport codec

From VoiceContext.js, processor.onaudioprocess (encode) and
playNextAudio (decode):

  const s = Math.max(-1, Math.min(1, inputData[i]));
  pcm16[i] = s < 0 ? s * 0x8000 : s * 0x7FFF;

  float32Array[i] = int16Array[i] / 32768.0;

Storing into an Int16Array truncates the scaled value toward zero and wraps
it into the signed 16-bit range (ECMAScript ToInt16).
-/

/-- Clamp a sample to [-1, 1], as Math.max(-1, Math.min(1, x)). -/
def clampSample (x : ℚ) : ℚ := max (-1) (min 1 x)

/-- Truncation toward zero, as performed when a number is stored into an
Int16Array slot. -/
def jsTrunc (q : ℚ) : ℤ := if q < 0 then ⌈q⌉ else ⌊q⌋

/-- Signed 16-bit wraparound (ECMAScript ToInt16 after truncation). -/
def wrap16 (n : ℤ) : ℤ := (n + 32768) % 65536 - 32768

/-- Encode one float sample to a 16-bit PCM value: clamp to [-1,1], scale
negative samples by 0x8000 and non-negative ones by 0x7FFF, truncate and
wrap into the signed 16-bit range. -/
def encodeSample (x : ℚ) : ℤ :=
  let s := clampSample x
  wrap16 (jsTrunc (if s < 0 then s * 32768 else s * 32767))

/-- Decode one 16-bit PCM value to a float sample: divide by 32768. -/
def decodeSample (v : ℤ) : ℚ := (v : ℚ) / 32768

/-- Encode a capture buffer (the loop of processor.onaudioprocess). -/
def encode (xs : List ℚ) : List ℤ := xs.map encodeSample

/-- Decode an inbound PCM buffer (the loop of playNextAudio). -/
def decode (vs : List ℤ) : List ℚ := vs.map decodeSample

/-! ## Outbound send guard

From processor.onaudioprocess:

  if (wsRef.current?.readyState === WebSocket.OPEN) { ... send(pcm16) }

wsRef.current may be null (modelled as none); otherwise it has one of the
four WebSocket ready states.
-/

/-- The four WebSocket ready states. -/
inductive ReadyState where
  | CONNECTING
  | OPEN
  | CLOSING
  | CLOSED
  deriving DecidableEq, Repr

/-- One run of the onaudioprocess callback: returns the binary frame handed
to send, or none when the frame is dropped because the channel is absent or
not open. Nothing else is produced: there is no outbound queue. -/
def onAudioProcess (ws : Option ReadyState) (input : List ℚ) : Option (List ℤ) :=
  if ws = some ReadyState.OPEN then some (encode input) else none

/-! ## Cart (CartContext.js) -/

/-- A catalog product as far as the cart logic inspects it. -/
structure Product where
  id : Nat
  name : String
  price : Int
  deriving DecidableEq, Repr

/-- A cart line: the spread of a product plus a quantity
({ ...product, quantity }). -/
structure CartItem where
  id : Nat
  name : String
  price : Int
  quantity : Nat
  deriving DecidableEq, Repr

/-- { ...product, quantity: q }. -/
def mkCartItem (p : Product) (q : Nat) : CartItem :=
  { id := p.id, name := p.name, price := p.price, quantity := q }

/-- addToCart from CartContext.js: if an item with the product id exists,
bump its quantity by one via map; otherwise append a fresh item with
quantity 1. -/
def addToCart (product : Product) (prev : List CartItem) : List CartItem :=
  match prev.find? (fun item => item.id == product.id) with
  | some _ =>
      prev.map (fun item =>
        if item.id == product.id then
          { item with quantity := item.quantity + 1 }
        else item)
  | none => prev ++ [mkCartItem product 1]

/-! ## Playback queue

From VoiceContext.js: playbackQueueRef, isPlayingRef, playNextAudio, the
audio branch of ws.onmessage, the clear_audio_queue branch of
handleWebSocketEvent, and the source.onended continuation. rendered is the
ghost list of frames whose render was started and completed, in order.
-/

/-- An inbound audio frame (its raw PCM payload). -/
abbrev Frame := List ℤ

/-- State of the playback machinery. audioCtx records whether
audioContextRef currently holds an AudioContext. -/
structure PlayState where
  queue : List Frame
  isPlaying : Bool
  isSpeaking : Bool
  current : Option Frame
  rendered : List Frame
  audioCtx : Bool
  deriving DecidableEq, Repr

/-- State at session start: empty queue, nothing playing, context live. -/
def initPlayState : PlayState :=
  { queue := [], isPlaying := false, isSpeaking := false, current := none,
    rendered := [], audioCtx := true }

/-- playNextAudio: the re-entrancy guard returns immediately when a render
is active or the queue is empty (clearing isSpeaking in the empty case);
otherwise it marks playing, shifts the head frame and, when an
AudioContext exists, starts its decode and render (current := that
frame). -/
def playNextAudio (s : PlayState) : PlayState :=
  if s.isPlaying || s.queue.isEmpty then
    if s.queue.isEmpty then { s with isSpeaking := false } else s
  else
    match s.queue with
    | [] => { s with isSpeaking := false }
    | f :: rest =>
      let s := { s with isPlaying := true, queue := rest }
      if s.audioCtx then { s with current := some f } else s

/-- The audio branch of ws.onmessage: push the frame, mark speaking, kick
the player. -/
def recvAudioFrame (s : PlayState) (f : Frame) : PlayState :=
  playNextAudio { s with queue := s.queue ++ [f], isSpeaking := true }

/-- The source.onended continuation of the active render: record the frame
as rendered, drop the active source, clear the playing guard and chain to
the next frame. Without an active render nothing can fire. -/
def renderEnded (s : PlayState) : PlayState :=
  match s.current with
  | some f =>
      playNextAudio
        { s with rendered := s.rendered ++ [f], current := none, isPlaying := false }
  | none => s

/-- The clear_audio_queue branch of handleWebSocketEvent: drop all queued
frames and clear the speaking flag. -/
def clearAudioQueue (s : PlayState) : PlayState :=
  { s with queue := [], isSpeaking := false }

/-- Externally driven playback events: an inbound audio frame, or the
natural completion of the active render. -/
inductive PlayEvent where
  | recv (f : Frame)
  | ended
  deriving Repr

/-- Dispatch one playback event. -/
def playStep (s : PlayState) : PlayEvent → PlayState
  | .recv f => recvAudioFrame s f
  | .ended => renderEnded s

/-- Run a sequence of playback events. -/
def runPlay (s : PlayState) (evs : List PlayEvent) : PlayState :=
  evs.foldl playStep s

/-- The frames carried by a playback event sequence, in arrival order. -/
def arrivals : List PlayEvent → List Frame
  | [] => []
  | .recv f :: evs => f :: arrivals evs
  | .ended :: evs => arrivals evs

/-- Iterate the onended continuation n times. -/
def iterEnded : PlayState → Nat → PlayState
  | s, 0 => s
  | s, n + 1 => iterEnded (renderEnded s) n

/-! ## Voice session lifecycle

From startVoice, stopVoice, toggleVoice and cleanup in VoiceContext.js.
connections counts WebSocket objects created and not closed; micStreams
counts media streams acquired and not stopped; the Live flags record
whether wsRef and mediaStreamRef point to such a resource. isConnected is
React state, set by ws.onopen and cleared by stopVoice and ws.onclose.
-/

/-- Resource and connection state of the voice session machinery. -/
structure VoiceSessState where
  isConnected : Bool
  isListening : Bool
  connections : Nat
  micStreams : Nat
  wsRefLive : Bool
  micRefLive : Bool
  deriving DecidableEq, Repr

/-- Initial provider state: nothing acquired, disconnected. -/
def initVoiceSess : VoiceSessState :=
  { isConnected := false, isListening := false, connections := 0,
    micStreams := 0, wsRefLive := false, micRefLive := false }

/-- startVoice (after the microphone permission resolves): acquires a new
media stream, opens a new WebSocket and overwrites both refs. There is no
guard against an already-live session, and isConnected is only set later
by the onopen callback. -/
def startVoice (s : VoiceSessState) : VoiceSessState :=
  { s with connections := s.connections + 1, micStreams := s.micStreams + 1,
           wsRefLive := true, micRefLive := true }

/-- The ws.onopen callback: mark connected and listening. -/
def wsOnOpen (s : VoiceSessState) : VoiceSessState :=
  { s with isConnected := true, isListening := true }

/-- cleanup: close the socket wsRef points to, stop the tracks of the
stream mediaStreamRef points to (only those), null both refs. -/
def cleanup (s : VoiceSessState) : VoiceSessState :=
  { s with connections := s.connections - (if s.wsRefLive then 1 else 0),
           micStreams := s.micStreams - (if s.micRefLive then 1 else 0),
           wsRefLive := false, micRefLive := false }

/-- stopVoice: cleanup plus clearing the connection state. -/
def stopVoice (s : VoiceSessState) : VoiceSessState :=
  { cleanup s with isConnected := false, isListening := false }

/-- The ws.onclose callback: clear connection state, then cleanup. -/
def wsOnClose (s : VoiceSessState) : VoiceSessState :=
  cleanup { s with isConnected := false, isListening := false }

/-- toggleVoice: stop when isConnected, otherwise start. -/
def toggleVoice (s : VoiceSessState) : VoiceSessState :=
  if s.isConnected then stopVoice s else startVoice s

/-- Externally driven session events: a user toggle, transport open,
transport closure. -/
inductive VoiceEvt where
  | toggle
  | wsOpen
  | wsClose
  deriving Repr

/-- Dispatch one session event. -/
def voiceStep (s : VoiceSessState) : VoiceEvt → VoiceSessState
  | .toggle => toggleVoice s
  | .wsOpen => wsOnOpen s
  | .wsClose => wsOnClose s

/-- Run a sequence of session events. -/
def runVoice (s : VoiceSessState) (evs : List VoiceEvt) : VoiceSessState :=
  evs.foldl voiceStep s

/-! ## UI events and the UI synchronization layer

From handleUIUpdate in VoiceContext.js together with the callbacks the
Products page registers (frontend/src/pages/Products.js). The callbacks are
registered exactly while the Products page is mounted, modelled by the
productsMounted field: a callback ref is non-null iff the page is mounted.
-/

/-- The partial filter map carried by a ui_update event. -/
structure Filters where
  category : Option String
  brand : Option String
  min_price : Option Int
  max_price : Option Int
  sort_by : Option String
  query : Option String
  deriving DecidableEq, Repr

/-- The empty filter object {} (filters || {}). -/
def emptyFilters : Filters :=
  { category := none, brand := none, min_price := none, max_price := none,
    sort_by := none, query := none }

/-- Action tags of a ui_update event; UNKNOWN stands for any unrecognized
tag (logged and ignored by the default branch). -/
inductive UIAction where
  | SHOW_PRODUCTS
  | SHOW_PRODUCT_DETAILS
  | COMPARE_PRODUCTS
  | ADD_TO_CART
  | NAVIGATE
  | UNKNOWN
  deriving DecidableEq, Repr

/-- The data payload of a ui_update event. -/
structure UIData where
  products : Option (List Product)
  product : Option Product
  total : Option Nat
  deriving DecidableEq, Repr

/-- A ui_update event. -/
structure UIEvent where
  action : UIAction
  navigate_to : Option String
  data : Option UIData
  filters : Option Filters
  deriving DecidableEq, Repr

/-- The pending voice data stored for navigation scenarios
(pendingVoiceUpdateRef). -/
structure PendingUpdate where
  products : List Product
  total : Option Nat
  filters : Filters
  deriving DecidableEq, Repr

/-- The filter state of the Products page (searchQuery, selectedCategory,
selectedBrand, priceRange, sortBy). An absent price bound (the empty-string
initial value) is modelled as none. -/
structure PageFilters where
  searchQuery : String
  selectedCategory : String
  selectedBrand : String
  priceMin : Option Int
  priceMax : Option Int
  sortBy : String
  deriving DecidableEq, Repr

/-- One guarded setter of the registered filter callback for a string key:
if (filters.key) setKey(filters.key). An absent or empty (falsy) value
leaves the old state untouched. -/
def mergeStr (v : Option String) (old : String) : String :=
  match v with
  | some s => if s = "" then old else s
  | none => old

/-- One guarded setter for a numeric key: if (filters.key) setKey(...).
An absent or zero (falsy) value leaves the old state untouched. -/
def mergeNum (v : Option Int) (old : Option Int) : Option Int :=
  match v with
  | some n => if n = 0 then old else some n
  | none => old

/-- The filter callback registered by the Products page: each truthy key of
the event overwrites its own piece of state, every other key is kept. -/
def applyVoiceFilters (f : Filters) (pf : PageFilters) : PageFilters :=
  { searchQuery := mergeStr f.query pf.searchQuery,
    selectedCategory := mergeStr f.category pf.selectedCategory,
    selectedBrand := mergeStr f.brand pf.selectedBrand,
    priceMin := mergeNum f.min_price pf.priceMin,
    priceMax := mergeNum f.max_price pf.priceMax,
    sortBy := mergeStr f.sort_by pf.sortBy }

/-- Combined state of the VoiceContext provider and the Products page. -/
structure AppState where
  voiceUpdateFlag : Bool
  pendingVoiceUpdate : Option PendingUpdate
  lastProducts : List Product
  lastFilters : Filters
  currentPath : Option String
  productsMounted : Bool
  products : List Product
  total : Option Nat
  loading : Bool
  pageFilters : PageFilters
  compareList : List Product
  isCompareOpen : Bool
  selectedProduct : Option Product
  isModalOpen : Bool
  cart : List CartItem
  deriving DecidableEq, Repr

/-- Initial state: the useState initializers of VoiceContext.js and
Products.js, before the Products page has mounted. -/
def initAppState : AppState :=
  { voiceUpdateFlag := false,
    pendingVoiceUpdate := none,
    lastProducts := [],
    lastFilters := emptyFilters,
    currentPath := none,
    productsMounted := false,
    products := [],
    total := some 0,
    loading := true,
    pageFilters :=
      { searchQuery := "", selectedCategory := "", selectedBrand := "",
        priceMin := none, priceMax := none, sortBy := "relevance" },
    compareList := [],
    isCompareOpen := false,
    selectedProduct := none,
    isModalOpen := false,
    cart := [] }

/-- handleUIUpdate from VoiceContext.js, with the Products-page callbacks
inlined (they run synchronously when registered, i.e. when the page is
mounted). The trailing setTimeout that clears the flag is a separate step,
settleTimeout. Note that data?.products is truthy for any present array,
including the empty one. -/
def handleUIUpdate (s : AppState) (ev : UIEvent) : AppState :=
  let s := match ev.navigate_to with
    | some path => { s with currentPath := some path }
    | none => s
  match ev.action with
  | .SHOW_PRODUCTS =>
    match ev.data.bind (fun d => d.products) with
    | some ps =>
      let fs := ev.filters.getD emptyFilters
      let s := { s with lastProducts := ps, lastFilters := fs,
                        voiceUpdateFlag := true }
      let s := match ev.navigate_to with
        | some _ =>
            { s with pendingVoiceUpdate := some (PendingUpdate.mk ps (ev.data.bind (fun d => d.total)) fs) }
        | none => s
      let s := if s.productsMounted then
          { s with products := ps, total := ev.data.bind (fun d => d.total),
                   loading := false }
        else s
      match ev.filters with
      | some f => if s.productsMounted then
            { s with pageFilters := applyVoiceFilters f s.pageFilters }
          else s
      | none => s
    | none => s
  | .SHOW_PRODUCT_DETAILS =>
    match ev.data.bind (fun d => d.product) with
    | some p => if s.productsMounted then
          { s with selectedProduct := some p, isModalOpen := true }
        else s
    | none => s
  | .COMPARE_PRODUCTS =>
    match ev.data.bind (fun d => d.products) with
    | some ps => if s.productsMounted then
          { s with compareList := ps, isCompareOpen := true }
        else s
    | none => s
  | .ADD_TO_CART =>
    match ev.data.bind (fun d => d.product) with
    | some p => if s.productsMounted then
          { s with cart := addToCart p s.cart }
        else s
    | none => s
  | .NAVIGATE => s
  | .UNKNOWN => s

/-- The deferred setTimeout body of the SHOW_PRODUCTS branch: clear the
voice-update flag after the settle delay. -/
def settleTimeout (s : AppState) : AppState :=
  { s with voiceUpdateFlag := false }

/-- consumePendingVoiceData from VoiceContext.js: return the pending data
and clear the slot. -/
def consumePendingVoiceData (s : AppState) : Option PendingUpdate × AppState :=
  (s.pendingVoiceUpdate, { s with pendingVoiceUpdate := none })

/-- A successful response of the product-search API. -/
structure FetchResult where
  products : List Product
  total : Nat
  deriving DecidableEq, Repr

/-- The fetch effect of the Products page (the useEffect around
fetchProducts): skipped entirely while the voice-update flag is set,
otherwise (on a successful response) it overwrites products and total. -/
def fetchEffect (s : AppState) (r : FetchResult) : AppState :=
  if s.voiceUpdateFlag then s
  else { s with products := r.products, total := some r.total, loading := false }

/-- Whether the CompareModal renders anything:
if (!isOpen || !products || products.length < 2) return null. -/
def compareModalVisible (s : AppState) : Bool :=
  s.isCompareOpen && decide (2 ≤ s.compareList.length)

/-! ## Codec lemmas -/

/-- Signed 16-bit wraparound is the identity on the in-range values. -/
lemma wrap16_eq_self (n : ℤ) (h1 : -32768 ≤ n) (h2 : n ≤ 32767) : wrap16 n = n := by
  unfold wrap16
  rw [Int.emod_eq_of_lt (by omega) (by omega)]
  omega

/-- Clamping is the identity on samples already in [-1, 1]. -/
lemma clampSample_eq_self (x : ℚ) (h1 : -1 ≤ x) (h2 : x ≤ 1) : clampSample x = x := by
  unfold clampSample
  rw [min_eq_right h2, max_eq_right h1]

/-- Per-sample round trip: a sample in [-1, 1] is reconstructed within two
quantization steps of 1/32768 (and its scaled value never wraps). -/
lemma roundtrip_sample (x : ℚ) (h1 : -1 ≤ x) (h2 : x ≤ 1) :
    |decodeSample (encodeSample x) - x| ≤ 2/32768 := by
  unfold encodeSample jsTrunc
  rw [clampSample_eq_self x h1 h2]
  by_cases hx : x < 0
  · have hy1 : (-32768 : ℚ) ≤ x * 32768 := by nlinarith
    have hy2 : x * 32768 < 0 := by nlinarith
    simp only [if_pos hx, if_pos hy2]
    have hl : x * 32768 ≤ (⌈x * 32768⌉ : ℚ) := Int.le_ceil _
    have hc1 : (-32768 : ℤ) ≤ ⌈x * 32768⌉ := by
      have : (-32768 : ℚ) ≤ (⌈x * 32768⌉ : ℚ) := le_trans hy1 hl
      exact_mod_cast this
    have hc2 : ⌈x * 32768⌉ ≤ 32767 := by
      have : ⌈x * 32768⌉ ≤ 0 := Int.ceil_le.mpr (by exact_mod_cast hy2.le)
      omega
    rw [wrap16_eq_self _ hc1 hc2]
    unfold decodeSample
    have hu : (⌈x * 32768⌉ : ℚ) < x * 32768 + 1 := Int.ceil_lt_add_one _
    rw [abs_le]
    constructor <;> nlinarith
  · push_neg at hx
    have hy1 : (0 : ℚ) ≤ x * 32767 := by nlinarith
    have hy2 : x * 32767 ≤ 32767 := by nlinarith
    simp only [if_neg (not_lt.mpr hx), if_neg (not_lt.mpr hy1)]
    have hf1 : (0 : ℤ) ≤ ⌊x * 32767⌋ := Int.le_floor.mpr (by exact_mod_cast hy1)
    have hl : (⌊x * 32767⌋ : ℚ) ≤ x * 32767 := Int.floor_le _
    have hf2 : ⌊x * 32767⌋ ≤ 32767 := by
      have : (⌊x * 32767⌋ : ℚ) ≤ 32767 := le_trans hl hy2
      exact_mod_cast this
    rw [wrap16_eq_self _ (by omega) hf2]
    unfold decodeSample
    have hu : x * 32767 - 1 < (⌊x * 32767⌋ : ℚ) := Int.sub_one_lt_floor _
    rw [abs_le]
    constructor <;> nlinarith

/-- The concrete sample 65533/65534 lies in [-1, 1] and encodes to 32766. -/
lemma encodeSample_counterexample_value : encodeSample (65533/65534) = 32766 := by
  have hclamp : clampSample (65533/65534) = 65533/65534 := by
    unfold clampSample
    rw [min_eq_right (by norm_num), max_eq_right (by norm_num)]
  have hfloor : ⌊(65533/65534 : ℚ) * 32767⌋ = 32766 := by
    rw [Int.floor_eq_iff]
    norm_num
  unfold encodeSample jsTrunc wrap16
  rw [hclamp]
  norm_num [hfloor]

/-! ## Playback queue lemmas -/

/-- playNextAudio neither loses nor reorders frames: the concatenation of
rendered frames, active render and queue is preserved, the playing guard
keeps tracking the active render, and already-rendered frames are
untouched. -/
lemma playNextAudio_trace (s : PlayState)
    (hp : s.isPlaying = s.current.isSome) (hc : s.audioCtx = true) :
    (playNextAudio s).rendered ++ (playNextAudio s).current.toList ++ (playNextAudio s).queue
      = s.rendered ++ s.current.toList ++ s.queue ∧
    (playNextAudio s).isPlaying = (playNextAudio s).current.isSome ∧
    (playNextAudio s).audioCtx = true ∧
    (playNextAudio s).rendered = s.rendered := by
  unfold playNextAudio
  by_cases hpl : s.isPlaying
  · by_cases hq : s.queue.isEmpty <;> simp [hpl, hq, ← hp, hc]
  · have hcur : s.current = none := by
      cases hcv : s.current with
      | none => rfl
      | some f => rw [hcv] at hp; simp [hpl] at hp
    cases hqv : s.queue with
    | nil => simp [hpl, hqv, hcur, hp, hc]
    | cons f rest => simp [hpl, hqv, hcur, hc]

/-- One playback event appends exactly its arrivals to the frame trace and
keeps the playing guard consistent. -/
lemma playStep_trace (s : PlayState) (ev : PlayEvent)
    (hp : s.isPlaying = s.current.isSome) (hc : s.audioCtx = true) :
    (playStep s ev).rendered ++ (playStep s ev).current.toList ++ (playStep s ev).queue
      = s.rendered ++ s.current.toList ++ s.queue ++ arrivals [ev] ∧
    (playStep s ev).isPlaying = (playStep s ev).current.isSome ∧
    (playStep s ev).audioCtx = true := by
  cases ev with
  | recv f =>
    have h := playNextAudio_trace { s with queue := s.queue ++ [f], isSpeaking := true }
      (by simpa using hp) (by simpa using hc)
    refine ⟨?_, h.2.1, h.2.2.1⟩
    simp only [playStep, recvAudioFrame]
    rw [h.1]
    simp [arrivals, List.append_assoc]
  | ended =>
    simp only [playStep, renderEnded]
    cases hcv : s.current with
    | none => simp [arrivals, hp, hcv, hc]
    | some f =>
      have h := playNextAudio_trace
        { s with rendered := s.rendered ++ [f], current := none, isPlaying := false }
        (by simp) (by simpa using hc)
      refine ⟨?_, h.2.1, h.2.2.1⟩
      rw [h.1]
      simp [arrivals, hcv, List.append_assoc]

/-- A run of playback events appends exactly its arrivals, in order, to the
frame trace. -/
lemma runPlay_trace (s : PlayState) (evs : List PlayEvent)
    (hp : s.isPlaying = s.current.isSome) (hc : s.audioCtx = true) :
    (runPlay s evs).rendered ++ (runPlay s evs).current.toList ++ (runPlay s evs).queue
      = s.rendered ++ s.current.toList ++ s.queue ++ arrivals evs := by
  induction evs generalizing s with
  | nil => simp [runPlay, arrivals]
  | cons ev evs ih =>
    have h := playStep_trace s ev hp hc
    have h2 := ih (playStep s ev) h.2.1 h.2.2
    simp only [runPlay, List.foldl_cons] at h2 ⊢
    rw [h2, h.1]
    cases ev <;> simp [arrivals, List.append_assoc]

/-- On a state with an empty queue and cleared speaking flag, iterating the
onended continuation completes at most the in-flight render and starts no
new one. -/
lemma iterEnded_empty (s : PlayState) (hq : s.queue = []) (hsp : s.isSpeaking = false)
    (n : Nat) :
    (iterEnded s n).queue = [] ∧
    (iterEnded s n).isSpeaking = false ∧
    (iterEnded s n).rendered = s.rendered ++ (if n = 0 then [] else s.current.toList) ∧
    (iterEnded s n).current = (if n = 0 then s.current else none) := by
  induction n generalizing s with
  | zero => simp [iterEnded, hq, hsp]
  | succ n ih =>
    cases hcv : s.current with
    | none =>
      have hre : renderEnded s = s := by simp [renderEnded, hcv]
      have h := ih s hq hsp
      simp only [iterEnded, hre]
      refine ⟨h.1, h.2.1, ?_, ?_⟩
      · rw [h.2.2.1]
        cases n <;> simp [hcv]
      · rw [h.2.2.2]
        cases n <;> simp [hcv]
    | some f =>
      have hre : renderEnded s =
          { s with rendered := s.rendered ++ [f], current := none,
                   isPlaying := false, isSpeaking := false } := by
        simp [renderEnded, hcv, playNextAudio, hq]
      have h := ih (renderEnded s) (by rw [hre]; exact hq) (by rw [hre])
      simp only [iterEnded]
      refine ⟨h.1, h.2.1, ?_, ?_⟩
      · rw [h.2.2.1, hre]
        cases n <;> simp [hcv]
      · rw [h.2.2.2, hre]
        cases n <;> simp

/-! ## Claim theorems: playback queue -/

/-- C5: a clear_audio_queue event empties the playback queue and clears
the speaking flag, and afterwards no frame beyond the one already being
rendered is ever rendered, no new render starts, the queue stays empty and
the flag stays false, however many render completions follow. -/
theorem c5_clear_audio_queue (s : PlayState) (n : Nat) :
    (iterEnded (clearAudioQueue s) n).queue = [] ∧
    (iterEnded (clearAudioQueue s) n).isSpeaking = false ∧
    (iterEnded (clearAudioQueue s) n).rendered =
      s.rendered ++ (if n = 0 then [] else s.current.toList) ∧
    (iterEnded (clearAudioQueue s) n).current = (if n = 0 then s.current else none) := by
  have h := iterEnded_empty (clearAudioQueue s) rfl rfl n
  simpa [clearAudioQueue] using h

/-- C6: over every sequence of frame arrivals and render completions the
rendered frames are an initial segment of the arrival order, and a
playNextAudio call while a render is active is a no-op on the queue, the
active render and the rendered frames (the re-entrancy guard). -/
theorem c6_ordering :
    (∀ evs : List PlayEvent, ∃ rest,
      arrivals evs = (runPlay initPlayState evs).rendered ++ rest) ∧
    (∀ s : PlayState, s.isPlaying = true →
      (playNextAudio s).queue = s.queue ∧
      (playNextAudio s).current = s.current ∧
      (playNextAudio s).rendered = s.rendered ∧
      (playNextAudio s).isPlaying = true) := by
  constructor
  · intro evs
    have h := runPlay_trace initPlayState evs rfl rfl
    have h2 : (runPlay initPlayState evs).rendered ++ (runPlay initPlayState evs).current.toList
        ++ (runPlay initPlayState evs).queue = arrivals evs := by
      rw [h]
      rfl
    refine ⟨(runPlay initPlayState evs).current.toList ++ (runPlay initPlayState evs).queue, ?_⟩
    rw [← h2]
    simp [List.append_assoc]
  · intro s hpl
    unfold playNextAudio
    by_cases hq : s.queue.isEmpty <;> simp [hpl, hq]

/-- C6 witness: the ordering statement on a concrete three-event run, and
the re-entrancy no-op on a concrete busy state. -/
theorem c6_ordering_witness :
    (∃ rest, arrivals [PlayEvent.recv [1], PlayEvent.recv [2], PlayEvent.ended] =
      (runPlay initPlayState [PlayEvent.recv [1], PlayEvent.recv [2], PlayEvent.ended]).rendered
        ++ rest) ∧
    (playNextAudio { initPlayState with isPlaying := true }).queue =
      ({ initPlayState with isPlaying := true } : PlayState).queue :=
  ⟨c6_ordering.1 [PlayEvent.recv [1], PlayEvent.recv [2], PlayEvent.ended],
   (c6_ordering.2 { initPlayState with isPlaying := true } rfl).1⟩

/-! ## Claim theorems: session lifecycle -/

/-- C3 (counterexample): two rapid toggles, the second before the socket
of the first has opened, run startVoice twice: two connections are open
and two media streams acquired, and invoking startVoice on the live
session state is not a no-op. -/
theorem c3_counterexample :
    (runVoice initVoiceSess [VoiceEvt.toggle, VoiceEvt.toggle]).connections = 2 ∧
    (runVoice initVoiceSess [VoiceEvt.toggle, VoiceEvt.toggle]).micStreams = 2 ∧
    startVoice (runVoice initVoiceSess [VoiceEvt.toggle]) ≠
      runVoice initVoiceSess [VoiceEvt.toggle] := by
  decide

/-- C3 (amended): startVoice itself is unguarded and always opens a fresh
connection and media stream; the only guard is in toggleVoice and keys on
isConnected, which is set only at transport open — a toggle while
connected stops the session instead of starting a second one, but a toggle
while a start is in flight (isConnected still false) starts another
session. -/
theorem c3_toggle_guard (s : VoiceSessState) :
    (s.isConnected = true → toggleVoice s = stopVoice s) ∧
    (s.isConnected = false →
      toggleVoice s = startVoice s ∧
      (toggleVoice s).connections = s.connections + 1 ∧
      (toggleVoice s).micStreams = s.micStreams + 1) := by
  constructor
  · intro h
    simp [toggleVoice, h]
  · intro h
    simp [toggleVoice, h, startVoice]

/-- C3 witness: the guard decision at the two concrete states, before and
after transport open. -/
theorem c3_toggle_guard_witness :
    toggleVoice initVoiceSess = startVoice initVoiceSess ∧
    toggleVoice { initVoiceSess with isConnected := true } =
      stopVoice { initVoiceSess with isConnected := true } :=
  ⟨((c3_toggle_guard initVoiceSess).2 rfl).1,
   (c3_toggle_guard { initVoiceSess with isConnected := true }).1 rfl⟩

/-! ## Claim theorems: UI synchronization -/

/-- C1: while the voice-update flag is set, every independently-triggered
HTTP product refresh is skipped entirely: any sequence of refresh results
leaves the whole state, in particular the voice-provided product list and
total, unchanged. -/
theorem c1_flag_suppresses_refresh (s : AppState) (h : s.voiceUpdateFlag = true)
    (rs : List FetchResult) :
    List.foldl fetchEffect s rs = s ∧
    (List.foldl fetchEffect s rs).products = s.products ∧
    (List.foldl fetchEffect s rs).total = s.total := by
  have main : List.foldl fetchEffect s rs = s := by
    induction rs with
    | nil => rfl
    | cons r rs ih =>
      rw [List.foldl_cons]
      have hstep : fetchEffect s r = s := by
        unfold fetchEffect
        rw [h]
        rfl
      rw [hstep]
      exact ih
  exact ⟨main, by rw [main], by rw [main]⟩

/-- C1 witness: a concrete flagged state absorbs a concrete refresh. -/
theorem c1_flag_suppresses_refresh_witness :
    List.foldl fetchEffect { initAppState with voiceUpdateFlag := true }
        [{ products := [⟨9, "x", 1⟩], total := 1 }] =
      { initAppState with voiceUpdateFlag := true } :=
  (c1_flag_suppresses_refresh { initAppState with voiceUpdateFlag := true } rfl
    [{ products := [⟨9, "x", 1⟩], total := 1 }]).1

/-- C2: a SHOW_PRODUCTS event that carries both products and a navigation
target stores a pending update that is consumed exactly once: the first
read returns the stored products, total and filters and clears the slot,
and a second read returns none. -/
theorem c2_pending_consumed_once (s : AppState) (ps : List Product) (t : Option Nat)
    (fs : Option Filters) (path : String) :
    (consumePendingVoiceData (handleUIUpdate s
        { action := .SHOW_PRODUCTS, navigate_to := some path,
          data := some { products := some ps, product := none, total := t },
          filters := fs })).1 =
      some { products := ps, total := t, filters := fs.getD emptyFilters } ∧
    (consumePendingVoiceData
        (consumePendingVoiceData (handleUIUpdate s
          { action := .SHOW_PRODUCTS, navigate_to := some path,
            data := some { products := some ps, product := none, total := t },
            filters := fs })).2).1 = none := by
  cases fs with
  | none =>
    cases hm : s.productsMounted <;>
      simp [handleUIUpdate, consumePendingVoiceData, hm]
  | some f =>
    cases hm : s.productsMounted <;>
      simp [handleUIUpdate, consumePendingVoiceData, hm]

/-- C7: a COMPARE_PRODUCTS event whose products payload has fewer than two
entries opens no comparison view: the CompareModal guard renders nothing,
whatever the prior state. -/
theorem c7_compare_below_min_no_view (s : AppState) (ps : List Product)
    (nav : Option String) (h1 : ps.length < 2) (h2 : s.productsMounted = true) :
    compareModalVisible (handleUIUpdate s
      { action := .COMPARE_PRODUCTS, navigate_to := nav,
        data := some { products := some ps, product := none, total := none },
        filters := none }) = false := by
  cases nav with
  | none =>
    simp [handleUIUpdate, compareModalVisible, h2]
    omega
  | some path =>
    simp [handleUIUpdate, compareModalVisible, h2]
    omega

/-- C7 witness: a one-product comparison event on a mounted page renders no
comparison view. -/
theorem c7_compare_below_min_no_view_witness :
    compareModalVisible (handleUIUpdate { initAppState with productsMounted := true }
      { action := .COMPARE_PRODUCTS, navigate_to := none,
        data := some { products := some [⟨1, "a", 10⟩], product := none, total := none },
        filters := none }) = false :=
  c7_compare_below_min_no_view { initAppState with productsMounted := true }
    [⟨1, "a", 10⟩] none (by decide) rfl

/-- C8: the voice filter callback merges only the provided keys; every key
absent from the event keeps its previous page value, for each of the six
keys (query, category, brand, min price, max price, sort key). -/
theorem c8_filter_merge_preserves_unset (f : Filters) (pf : PageFilters) :
    (f.query = none → (applyVoiceFilters f pf).searchQuery = pf.searchQuery) ∧
    (f.category = none → (applyVoiceFilters f pf).selectedCategory = pf.selectedCategory) ∧
    (f.brand = none → (applyVoiceFilters f pf).selectedBrand = pf.selectedBrand) ∧
    (f.min_price = none → (applyVoiceFilters f pf).priceMin = pf.priceMin) ∧
    (f.max_price = none → (applyVoiceFilters f pf).priceMax = pf.priceMax) ∧
    (f.sort_by = none → (applyVoiceFilters f pf).sortBy = pf.sortBy) := by
  refine ⟨?_, ?_, ?_, ?_, ?_, ?_⟩ <;>
    (intro h; simp [applyVoiceFilters, mergeStr, mergeNum, h])

/-- C8 witness: an event providing only a category leaves the other five
keys of a concrete page state untouched. -/
theorem c8_filter_merge_preserves_unset_witness :
    (applyVoiceFilters { emptyFilters with category := some "laptops" }
        initAppState.pageFilters).searchQuery = initAppState.pageFilters.searchQuery ∧
    (applyVoiceFilters { emptyFilters with category := some "laptops" }
        initAppState.pageFilters).sortBy = initAppState.pageFilters.sortBy :=
  ⟨(c8_filter_merge_preserves_unset { emptyFilters with category := some "laptops" }
      initAppState.pageFilters).1 rfl,
   (c8_filter_merge_preserves_unset { emptyFilters with category := some "laptops" }
      initAppState.pageFilters).2.2.2.2.2 rfl⟩

/-! ## Claim theorems: codec, send guard, cart -/

/-- C4 (counterexample): the claim that decode(encode(x)) is within one
quantization step (1/32768) of x fails at the in-range sample 65533/65534:
it encodes to 32766, decodes to 16383/16384, and the error exceeds
1/32768. -/
theorem c4_counterexample :
    -1 ≤ (65533/65534 : ℚ) ∧ (65533/65534 : ℚ) ≤ 1 ∧
    decode (encode [65533/65534]) = [16383/16384] ∧
    1/32768 < |(16383/16384 : ℚ) - 65533/65534| := by
  refine ⟨by norm_num, by norm_num, ?_, ?_⟩
  · simp only [encode, decode, List.map_cons, List.map_nil,
      encodeSample_counterexample_value]
    unfold decodeSample
    norm_num
  · rw [abs_of_neg (by norm_num)]
    norm_num

/-- C4 (amended): for every array of samples in [-1, 1], decoding the
encoded buffer is the per-sample round trip, and each sample is
reconstructed within two quantization steps (2/32768). -/
theorem c4_roundtrip_two_steps (xs : List ℚ) (h : ∀ x ∈ xs, -1 ≤ x ∧ x ≤ 1) :
    decode (encode xs) = xs.map (fun x => decodeSample (encodeSample x)) ∧
    ∀ x ∈ xs, |decodeSample (encodeSample x) - x| ≤ 2/32768 := by
  constructor
  · simp [decode, encode, List.map_map, Function.comp]
  · intro x hx
    exact roundtrip_sample x (h x hx).1 (h x hx).2

/-- C4 witness: the amended round-trip bound applied to the concrete
buffer consisting of the samples 0, 1, -1 and 1/3. -/
theorem c4_roundtrip_two_steps_witness :
    decode (encode [0, 1, -1, 1/3]) =
      [0, 1, -1, 1/3].map (fun x => decodeSample (encodeSample x)) ∧
    ∀ x ∈ [(0 : ℚ), 1, -1, 1/3], |decodeSample (encodeSample x) - x| ≤ 2/32768 :=
  c4_roundtrip_two_steps [0, 1, -1, 1/3] (by norm_num)

/-- C9: an outbound capture buffer is handed to send exactly when the
channel exists and its ready state is OPEN at capture time; otherwise the
callback produces nothing at all (no frame, no queueing, no error). -/
theorem c9_send_iff_open (ws : Option ReadyState) (input : List ℚ) :
    (onAudioProcess ws input = some (encode input) ↔ ws = some ReadyState.OPEN) ∧
    ((onAudioProcess ws input).isSome ↔ ws = some ReadyState.OPEN) := by
  unfold onAudioProcess
  by_cases hws : ws = some ReadyState.OPEN <;> simp [hws]

/-- C10: when cart item ids are unique, addToCart preserves uniqueness;
if an item with the product id already exists, the result is pointwise the
old cart with exactly the quantity of that item bumped by one (same length, all
other entries unchanged); otherwise the result is the old cart with a
single fresh quantity-1 entry appended. -/
theorem c10_addToCart_preserves_uniqueness (p : Product) (items : List CartItem)
    (h : (items.map (fun it => it.id)).Nodup) :
    ((addToCart p items).map (fun it => it.id)).Nodup ∧
    (∀ it0 ∈ items, it0.id = p.id →
      ∃ hl : (addToCart p items).length = items.length,
        ∀ i : Fin items.length,
          (addToCart p items).get (Fin.cast hl.symm i) =
            (if (items.get i).id = p.id then
              { items.get i with quantity := (items.get i).quantity + 1 }
            else items.get i)) ∧
    ((∀ it0 ∈ items, it0.id ≠ p.id) →
      addToCart p items = items ++ [mkCartItem p 1]) := by
  unfold addToCart
  cases hfind : items.find? (fun item => item.id == p.id) with
  | none =>
    have hnone : ∀ it0 ∈ items, it0.id ≠ p.id := by
      intro it0 hmem
      have := List.find?_eq_none.mp hfind it0 hmem
      simpa using this
    refine ⟨?_, ?_, fun _ => rfl⟩
    · rw [List.map_append, List.nodup_append]
      refine ⟨h, by simp [mkCartItem], ?_⟩
      intro a ha
      simp only [List.mem_map] at ha
      obtain ⟨it0, hmem, rfl⟩ := ha
      simp [mkCartItem]
      exact fun heq => (hnone it0 hmem) heq
    · intro it0 hmem heq
      exact absurd heq (hnone it0 hmem)
  | some found =>
    have hfmem := List.mem_of_find?_eq_some hfind
    have hfid : found.id = p.id := by
      have := List.find?_some hfind
      simpa using this
    refine ⟨?_, ?_, ?_⟩
    · have hids : (items.map (fun it =>
        if it.id == p.id then { it with quantity := it.quantity + 1 } else it)).map
          (fun it => it.id) = items.map (fun it => it.id) := by
        rw [List.map_map]
        apply List.map_congr_left
        intro it _
        by_cases hid : it.id = p.id <;> simp [hid]
      rw [hids]
      exact h
    · intro it0 hmem heq
      refine ⟨by simp, ?_⟩
      intro i
      rw [List.get_map]
      by_cases hid : (items.get i).id = p.id <;> simp [hid]
    · intro hall
      exact absurd hfid (hall found hfmem)

/-- C10 witness: adding an already-present product to a concrete two-item
cart keeps ids unique, and adding an absent product appends one
quantity-1 entry. -/
theorem c10_addToCart_preserves_uniqueness_witness :
    ((addToCart ⟨1, "a", 10⟩ [⟨1, "a", 10, 2⟩, ⟨2, "b", 5, 1⟩]).map
      (fun it => it.id)).Nodup ∧
    addToCart ⟨3, "c", 7⟩ [⟨1, "a", 10, 2⟩] = [⟨1, "a", 10, 2⟩] ++ [mkCartItem ⟨3, "c", 7⟩ 1] :=
  ⟨(c10_addToCart_preserves_uniqueness ⟨1, "a", 10⟩ [⟨1, "a", 10, 2⟩, ⟨2, "b", 5, 1⟩]
      (by decide)).1,
   (c10_addToCart_preserves_uniqueness ⟨3, "c", 7⟩ [⟨1, "a", 10, 2⟩]
      (by decide)).2.2 (by decide)⟩

end Bitcomm
